import Mathlib

/-!
Verification of the macvmagt agent (Go) against its specification.

Each Go function relevant to the frozen claims is shallowly embedded as an
executable Lean definition; external effects (filesystem, processes, object
store, hypervisor CLI) are made explicit as state components or injected
outcomes. Machine integers are Nat/Int with explicit wraparound where the
source can overflow.
-/

set_option maxHeartbeats 1000000

namespace KV

/-- Lookup in a Go map modelled as an association list (first binding wins). -/
def find (k : String) : List (String × α) → Option α
  | [] => none
  | (k2, v) :: rest => if k2 = k then some v else find k rest

/-- Go `delete(m, k)`: remove every binding of `k`. -/
def erase (k : String) : List (String × α) → List (String × α)
  | [] => []
  | (k2, v) :: rest => if k2 = k then erase k rest else (k2, v) :: erase k rest

/-- Go `m[k] = v`: bind `k` to `v`, replacing any previous binding. -/
def insert (k : String) (v : α) (l : List (String × α)) : List (String × α) :=
  (k, v) :: erase k l

theorem find_erase_self (k : String) (l : List (String × α)) :
    find k (erase k l) = none := by
  induction l with
  | nil => simp [find, erase]
  | cons hd tl ih =>
    obtain ⟨k2, v⟩ := hd
    by_cases h : k2 = k
    · simp [erase, h, ih]
    · simp [erase, h, find, ih]

theorem find_insert_self (k : String) (v : α) (l : List (String × α)) :
    find k (insert k v l) = some v := by
  simp [insert, find]

theorem find_insert_ne (k k2 : String) (v : α) (l : List (String × α)) (h : k ≠ k2) :
    find k2 (insert k v l) = find k2 (erase k l) := by
  simp [insert, find, h]

end KV

namespace Ecid

/-- Go `math.MaxInt64`. -/
def maxInt64 : Nat := 2 ^ 63 - 1

/-- The bound passed to `crand.Int` in `generateMachineIdentifier` (main.go line
119): `MaxInt64 - 1`. `crand.Int(reader, n)` draws uniformly from `[0, n-1]`. -/
def upperBoundForRandInt : Nat := maxInt64 - 1

/-- `randomECID := randomBigInt.Uint64() + 1` (main.go line 124); `uint64`
arithmetic wraps modulo `2 ^ 64`. -/
def randomECID (r : Nat) : Nat := (r % 2 ^ 64 + 1) % 2 ^ 64

/-- C10: the ECID embedded in the generated machine identifier is the random
draw plus one, hence always in `[1, 2 ^ 63 - 1]`: never zero and never above
the signed 64-bit maximum. -/
theorem c10_ecid_in_signed_positive_range (r : Nat) (h : r < upperBoundForRandInt) :
    1 ≤ randomECID r ∧ randomECID r ≤ maxInt64 := by
  have hub : upperBoundForRandInt = 9223372036854775806 := by
    norm_num [upperBoundForRandInt, maxInt64]
  have hmax : maxInt64 = 9223372036854775807 := by norm_num [maxInt64]
  have h64 : (2 : Nat) ^ 64 = 18446744073709551616 := by norm_num
  have hr : r % 2 ^ 64 = r := Nat.mod_eq_of_lt (by omega)
  have hval : randomECID r = r + 1 := by
    unfold randomECID
    rw [hr, Nat.mod_eq_of_lt (by omega)]
  omega

/-- Witness for C10 at the concrete draw 41. -/
theorem c10_ecid_in_signed_positive_range_witness :
    1 ≤ randomECID 41 ∧ randomECID 41 ≤ maxInt64 :=
  c10_ecid_in_signed_positive_range 41 (by norm_num [upperBoundForRandInt, maxInt64])

end Ecid

namespace VMCache

/-- `LRUCache` (internal/vm/manager.go lines 232-238): a bounded cache of image
names to local paths; `queue` keeps the LRU order (head = least recent).
`capacity` is a Go `int`, so modelled as `Int`. -/
structure LRUCache where
  capacity : Int
  queue : List String
  items : List (String × String)
deriving Repr, DecidableEq

/-- `NewLRUCache` (manager.go lines 241-247). -/
def NewLRUCache (capacity : Int) : LRUCache :=
  { capacity := capacity, queue := [], items := [] }

/-- `moveToMRU` (manager.go lines 287-295): remove the first occurrence of
`key` and append it at the tail; when `key` is absent the loop finds nothing
and the queue is unchanged. -/
def moveToMRU (key : String) (q : List String) : List String :=
  if q.contains key then q.erase key ++ [key] else q

/-- `LRUCache.Add` (manager.go lines 250-272). `none` models the Go panic when
the eviction branch reads `queue[0]` of an empty queue. The eviction branch
removes the LRU entry from the map and queue but performs no file deletion
(the TODO at line 266 of the source). -/
def LRUCache.Add (c : LRUCache) (key value : String) : Option LRUCache :=
  if (KV.find key c.items).isSome then
    some { c with queue := moveToMRU key c.queue }
  else if c.capacity ≤ (c.queue.length : Int) then
    match c.queue with
    | [] => none
    | lruKey :: rest =>
      some { c with items := KV.insert key value (KV.erase lruKey c.items),
                    queue := rest ++ [key] }
  else
    some { c with items := KV.insert key value c.items, queue := c.queue ++ [key] }

/-- `LRUCache.Get` (manager.go lines 275-284): a hit refreshes recency. Go
returns `("", false)` on a miss; the pair is modelled as `Option String`. -/
def LRUCache.Get (c : LRUCache) (key : String) : Option String × LRUCache :=
  match KV.find key c.items with
  | some v => (some v, { c with queue := moveToMRU key c.queue })
  | none => (none, c)

/-- `Add` with the backing files on disk made explicit: the source performs no
file operation anywhere in `Add`, so the disk component passes through. -/
def LRUCache.AddWithDisk (c : LRUCache) (disk : List String) (key value : String) :
    Option (LRUCache × List String) :=
  (c.Add key value).map (fun c2 => (c2, disk))

theorem add_isSome_of_one_le_capacity (c : LRUCache) (key value : String)
    (hcap : 1 ≤ c.capacity) : (c.Add key value).isSome = true := by
  unfold LRUCache.Add
  by_cases h1 : (KV.find key c.items).isSome
  · simp [h1]
  · simp only [h1, if_false, Bool.false_eq_true]
    by_cases h2 : c.capacity ≤ (c.queue.length : Int)
    · cases hq : c.queue with
      | nil =>
        exfalso
        rw [hq] at h2
        simp at h2
        omega
      | cons a t =>
        simp [h2, hq]
        split <;> simp
    · simp [h2]

/-- C9: `LRUCache.Add` never indexes out of bounds when the capacity is at
least one; for a cache constructed with capacity at most zero, adding a key
that is not present reads element 0 of the empty queue (a Go panic, modelled
as `none`). -/
theorem c9_add_safe_iff_positive_capacity :
    (∀ (c : LRUCache) (key value : String),
        1 ≤ c.capacity → (c.Add key value).isSome = true) ∧
    (∀ (cap : Int) (key value : String),
        cap ≤ 0 → (NewLRUCache cap).Add key value = none) := by
  constructor
  · exact fun c key value hcap => add_isSome_of_one_le_capacity c key value hcap
  · intro cap key value hcap
    simp only [NewLRUCache, LRUCache.Add, KV.find, Option.isSome_none,
      Bool.false_eq_true, if_false, List.length_nil, Nat.cast_zero]
    simp [hcap]

/-- Witness for C9: a capacity-1 cache accepts an add; a capacity-0 cache
panics on the first add. -/
theorem c9_add_safe_iff_positive_capacity_witness :
    ((NewLRUCache 1).Add "A" "/cache/A").isSome = true ∧
    (NewLRUCache 0).Add "A" "/cache/A" = none :=
  ⟨c9_add_safe_iff_positive_capacity.1 (NewLRUCache 1) "A" "/cache/A" (by norm_num [NewLRUCache]),
   c9_add_safe_iff_positive_capacity.2 0 "A" "/cache/A" (by norm_num)⟩

/-- C6 (code bug): caching A, B, C in a capacity-2 `LRUCache` evicts A from the
map — a later `Get "A"` misses, so a fresh download is required — but the
eviction never deletes A's backing file from disk (the TODO at manager.go line
266): the disk still holds all three files afterwards. -/
theorem c6_lru_add_evicts_entry_but_never_deletes_file :
    ((LRUCache.AddWithDisk (NewLRUCache 2) ["/cache/A", "/cache/B", "/cache/C"]
        "A" "/cache/A").bind (fun s1 =>
      (LRUCache.AddWithDisk s1.1 s1.2 "B" "/cache/B").bind (fun s2 =>
        LRUCache.AddWithDisk s2.1 s2.2 "C" "/cache/C"))) =
      some ({ capacity := 2, queue := ["B", "C"],
              items := [("C", "/cache/C"), ("B", "/cache/B")] },
            ["/cache/A", "/cache/B", "/cache/C"]) ∧
    (LRUCache.Get { capacity := 2, queue := ["B", "C"],
                    items := [("C", "/cache/C"), ("B", "/cache/B")] } "A").1 = none := by
  constructor
  · rfl
  · rfl

end VMCache

namespace Admission

/-- `MaxActiveVMs` (main.go line 32). -/
def MaxActiveVMs : Nat := 2

/-- Program counter of one in-flight `handleProvisionVM` request (main.go
363-481). `getActiveVMs` holds the global mutex only for the directory scan
(main.go 241-258), so the scan-and-compare and the later `os.MkdirAll`
(main.go 404) are separate atomic steps. -/
inductive ReqPC where
  | checking
  | creating
  | accepted
  | rejected
deriving Repr, DecidableEq

/-- Shared node state: the number of `vm_` directories in the VM root plus the
program counter of every concurrent request. -/
structure NodeState where
  dirs : Nat
  procs : List ReqPC
deriving Repr, DecidableEq

/-- One scheduled atomic step of request `i`: at `checking` it runs
`getActiveVMs` and the capacity comparison (main.go 367-378), rejecting with
429 when `dirs` has reached `MaxActiveVMs`; at `creating` it runs `MkdirAll`,
creating its `vm_` directory and succeeding. -/
def step (s : NodeState) (i : Nat) : NodeState :=
  match s.procs.get? i with
  | some ReqPC.checking =>
    if MaxActiveVMs ≤ s.dirs then { s with procs := s.procs.set i ReqPC.rejected }
    else { s with procs := s.procs.set i ReqPC.creating }
  | some ReqPC.creating =>
    { dirs := s.dirs + 1, procs := s.procs.set i ReqPC.accepted }
  | _ => s

/-- Run a schedule (a list of request indices) from a state. -/
def run (s : NodeState) : List Nat → NodeState
  | [] => s
  | i :: rest => run (step s i) rest

def acceptedCount (s : NodeState) : Nat :=
  (s.procs.filter (fun pc => pc == ReqPC.accepted)).length

/-- C1 (code bug): the capacity check and the directory creation are not one
atomic check-and-reserve. Under the schedule in which three concurrent
provision requests all finish their `getActiveVMs` scan before any of them
creates its directory, all three are accepted on an empty node even though
`MaxActiveVMs = 2`: the node ends with three VM directories. -/
theorem c1_concurrent_check_then_create_overshoots :
    acceptedCount (run { dirs := 0, procs := [ReqPC.checking, ReqPC.checking, ReqPC.checking] }
      [0, 1, 2, 0, 1, 2]) = 3 ∧
    (run { dirs := 0, procs := [ReqPC.checking, ReqPC.checking, ReqPC.checking] }
      [0, 1, 2, 0, 1, 2]).dirs = 3 ∧
    MaxActiveVMs < 3 := by
  refine ⟨rfl, rfl, ?_⟩
  norm_num [MaxActiveVMs]

end Admission

namespace ImageFetch

/-- State of `Manager`'s image-acquisition path (internal/vm/manager.go 54-96)
for one image name: the LRU cache, the outcomes of successive
`gcsClient.DownloadFile` runs (`none` = success, `some e` = failure `e`), and
how many downloads have actually executed. -/
structure FetchState where
  imageCache : VMCache.LRUCache
  oracle : List (Option String)
  fetchCount : Nat
deriving Repr, DecidableEq

/-- The deterministic local path `filepath.Join(cfg.ImageCacheDir, name)`
(manager.go line 60). -/
def imageLocalPath (cacheDir name : String) : String := cacheDir ++ "/" ++ name

/-- The image-acquisition section of one `Manager.ProvisionVM` call
(manager.go 63-96). Because `m.mu` is held for the entire call, concurrent
calls serialize, and the `LoadOrStore`/done-channel machinery collapses to:
check `imageCache.Get`; on a miss the caller is the sole initiator, runs the
download (next oracle outcome), and on success `imageCache.Add`s the entry
before proceeding; on failure it returns the wrapped error with no cache
update (`m.imageDownloads.Delete` drops the ticket). The outer `none` models a
Go panic inside `LRUCache.Add`; the inner `none` oracle case is a model
artefact (no outcome supplied) not reached in the theorems. -/
def ensureAvailable (cacheDir name : String) (s : FetchState) :
    Option (Except String String × FetchState) :=
  match s.imageCache.Get name with
  | (some cached, c2) => some (Except.ok cached, { s with imageCache := c2 })
  | (none, _) =>
    match s.oracle with
    | [] => none
    | outcome :: rest =>
      let s1 : FetchState :=
        { s with oracle := rest, fetchCount := s.fetchCount + 1 }
      match outcome with
      | some e => some (Except.error ("image download failed: " ++ e), s1)
      | none =>
        match s1.imageCache.Add name (imageLocalPath cacheDir name) with
        | none => none
        | some c2 =>
          some (Except.ok (imageLocalPath cacheDir name), { s1 with imageCache := c2 })

/-- `n` serialized `ProvisionVM` image acquisitions for the same name,
collecting each caller's outcome. -/
def runCalls (cacheDir name : String) : Nat → FetchState →
    Option (List (Except String String) × FetchState)
  | 0, s => some ([], s)
  | n + 1, s =>
    match ensureAvailable cacheDir name s with
    | none => none
    | some (r, s2) =>
      match runCalls cacheDir name n s2 with
      | none => none
      | some (rs, s3) => some (r :: rs, s3)

theorem get_items_eq (c : VMCache.LRUCache) (key : String) :
    ((VMCache.LRUCache.Get c key).2).items = c.items := by
  unfold VMCache.LRUCache.Get
  cases h : KV.find key c.items <;> simp

theorem runCalls_of_hit (cacheDir name path : String) (n : Nat) :
    ∀ s : FetchState, KV.find name s.imageCache.items = some path →
      ∃ c2 : VMCache.LRUCache,
        runCalls cacheDir name n s =
          some (List.replicate n (Except.ok path),
                { s with imageCache := c2 }) ∧
        KV.find name c2.items = some path := by
  induction n with
  | zero =>
    intro s hhit
    exact ⟨s.imageCache, by simp [runCalls], hhit⟩
  | succ n ih =>
    intro s hhit
    have hget : VMCache.LRUCache.Get s.imageCache name =
        (some path, { s.imageCache with queue := VMCache.moveToMRU name s.imageCache.queue }) := by
      unfold VMCache.LRUCache.Get
      rw [hhit]
    have hhit2 : KV.find name
        ({ s.imageCache with queue := VMCache.moveToMRU name s.imageCache.queue } :
          VMCache.LRUCache).items = some path := hhit
    obtain ⟨c2, hrun, hfind⟩ := ih
      { s with imageCache :=
          { s.imageCache with queue := VMCache.moveToMRU name s.imageCache.queue } } hhit2
    refine ⟨c2, ?_, hfind⟩
    unfold runCalls ensureAvailable
    rw [hget]
    simp only []
    rw [hrun]
    rfl

/-- C2 (amended): when the single underlying fetch succeeds, exactly one
download executes across all `n` serialized callers, and every caller receives
the same final local path. -/
theorem c2_success_single_fetch_same_path (cacheDir name : String)
    (rest : List (Option String)) (c : VMCache.LRUCache)
    (hmiss : KV.find name c.items = none) (hcap : 1 ≤ c.capacity)
    (n : Nat) (hn : 1 ≤ n) :
    ∃ s2 : FetchState,
      runCalls cacheDir name n { imageCache := c, oracle := none :: rest, fetchCount := 0 } =
        some (List.replicate n (Except.ok (imageLocalPath cacheDir name)), s2) ∧
      s2.fetchCount = 1 ∧ s2.oracle = rest := by
  obtain ⟨m, rfl⟩ : ∃ m, n = m + 1 := ⟨n - 1, by omega⟩
  have hsome := VMCache.add_isSome_of_one_le_capacity c name (imageLocalPath cacheDir name) hcap
  obtain ⟨cAdded, hAdd⟩ : ∃ c2, c.Add name (imageLocalPath cacheDir name) = some c2 :=
    Option.isSome_iff_exists.mp hsome
  have hget : VMCache.LRUCache.Get c name = (none, c) := by
    unfold VMCache.LRUCache.Get
    rw [hmiss]
  have hfindAdded : KV.find name cAdded.items = some (imageLocalPath cacheDir name) := by
    unfold VMCache.LRUCache.Add at hAdd
    rw [hmiss] at hAdd
    simp only [Option.isSome_none, Bool.false_eq_true, if_false] at hAdd
    by_cases h2 : c.capacity ≤ (c.queue.length : Int)
    · rw [if_pos h2] at hAdd
      cases hq : c.queue with
      | nil =>
        rw [hq] at hAdd
        exact absurd hAdd (by simp)
      | cons a t =>
        rw [hq] at hAdd
        simp only [Option.some.injEq] at hAdd
        rw [← hAdd]
        exact KV.find_insert_self name (imageLocalPath cacheDir name) (KV.erase a c.items)
    · rw [if_neg h2] at hAdd
      simp only [Option.some.injEq] at hAdd
      rw [← hAdd]
      exact KV.find_insert_self name (imageLocalPath cacheDir name) c.items
  obtain ⟨c2, hrun, hfind⟩ := runCalls_of_hit cacheDir name (imageLocalPath cacheDir name) m
    { imageCache := cAdded, oracle := rest, fetchCount := 1 } hfindAdded
  refine ⟨{ imageCache := c2, oracle := rest, fetchCount := 1 }, ?_, rfl, rfl⟩
  unfold runCalls ensureAvailable
  rw [hget]
  simp only [hAdd]
  rw [hrun]
  rfl

/-- Witness for C2 (amended): three callers on an initially empty capacity-5
cache whose first download succeeds. -/
theorem c2_success_single_fetch_same_path_witness :
    ∃ s2 : FetchState,
      runCalls "/imagecache" "img" 3
        { imageCache := VMCache.NewLRUCache 5, oracle := [none], fetchCount := 0 } =
        some (List.replicate 3 (Except.ok (imageLocalPath "/imagecache" "img")), s2) ∧
      s2.fetchCount = 1 ∧ s2.oracle = [] :=
  c2_success_single_fetch_same_path "/imagecache" "img" [] (VMCache.NewLRUCache 5)
    rfl (by norm_num [VMCache.NewLRUCache]) 3 (by norm_num)

/-- C2 counterexample: two serialized callers for the same uncached name where
the first download fails. Two downloads execute (not one), and the callers
observe different outcomes (an error and a path), refuting the claim as
stated. -/
theorem c2_failed_fetch_two_fetches_different_outcomes :
    runCalls "/imagecache" "img" 2
      { imageCache := VMCache.NewLRUCache 5, oracle := [some "connection reset", none],
        fetchCount := 0 } =
      some ([Except.error "image download failed: connection reset",
             Except.ok "/imagecache/img"],
            { imageCache := { capacity := 5, queue := ["img"],
                              items := [("img", "/imagecache/img")] },
              oracle := [], fetchCount := 2 }) ∧
    (Except.error "image download failed: connection reset" :
      Except String String) ≠ Except.ok "/imagecache/img" := by
  exact ⟨rfl, by simp⟩

end ImageFetch

namespace ImageMgr

/-- `ImageInfo` (imagemgr, src/unnamed/part_004 lines 357-364). `lastUsed` is a
timestamp modelled as `Nat`. -/
structure ImageInfo where
  name : String
  path : String
  lastUsed : Nat
  size : Int
  checksum : String
  isDownloading : Bool
deriving Repr, DecidableEq

/-- The placeholder `&ImageInfo\x7bName: imageName, IsDownloading: true\x7d`
stored by `RequestImageDownload` (part_004 lines 499-504); the remaining Go
fields take their zero values. -/
def placeholder (name : String) : ImageInfo :=
  { name := name, path := "", lastUsed := 0, size := 0, checksum := "", isDownloading := true }

/-- The image manager's shared state: the metadata map, the buffered download
queue, and the set of backing files present in the cache directory. -/
structure MgrState where
  cache : List (String × ImageInfo)
  downloadQueue : List String
  disk : List String
deriving Repr, DecidableEq

/-- `RequestImageDownload` (part_004 lines 483-513): when an entry exists
(downloading or not) the call is a no-op; otherwise it stores a downloading
placeholder and enqueues the name. The model assumes the buffered queue is not
full (the `default` branch merely logs). -/
def RequestImageDownload (name : String) (s : MgrState) : MgrState :=
  match KV.find name s.cache with
  | some _ => s
  | none =>
    { s with cache := KV.insert name (placeholder name) s.cache,
             downloadQueue := s.downloadQueue ++ [name] }

/-- `GetCachedImagePath` (part_004 lines 455-469): a hit whenever the entry
exists — the `IsDownloading` flag is not consulted — refreshing `LastUsed` to
`now`. -/
def GetCachedImagePath (name : String) (now : Nat) (s : MgrState) :
    (String × Bool) × MgrState :=
  match KV.find name s.cache with
  | some info =>
    ((info.path, true),
     { s with cache := KV.insert name { info with lastUsed := now } s.cache })
  | none => (("", false), s)

/-- `IsImageDownloading` (part_004 lines 516-521). -/
def IsImageDownloading (name : String) (s : MgrState) : Bool :=
  match KV.find name s.cache with
  | some info => info.isDownloading
  | none => false

/-- Insertion step of `sort.Slice` by `LastUsed.Before` (part_004 625-627):
ascending, oldest first. -/
def insertByLastUsed (x : ImageInfo) : List ImageInfo → List ImageInfo
  | [] => [x]
  | y :: ys => if x.lastUsed < y.lastUsed then x :: y :: ys else y :: insertByLastUsed x ys

def sortByLastUsed : List ImageInfo → List ImageInfo
  | [] => []
  | x :: xs => insertByLastUsed x (sortByLastUsed xs)

/-- The eviction loop of `evictOldImages` (part_004 630-642) on the success
path of `os.Remove`: while more candidates remain than the limit, delete the
oldest candidate's backing file and drop it from the map. -/
def evictLoop (maxCached : Int) : List ImageInfo → MgrState → MgrState
  | [], s => s
  | img :: rest, s =>
    if maxCached < ((img :: rest).length : Int) then
      evictLoop maxCached rest
        { s with cache := KV.erase img.name s.cache, disk := s.disk.erase img.path }
    else s

/-- `evictOldImages` (part_004 lines 605-643): triggered when the whole map
(downloading entries included) exceeds the limit; only non-downloading entries
are eviction candidates, taken oldest-`LastUsed` first. -/
def evictOldImages (maxCached : Int) (s : MgrState) : MgrState :=
  if (s.cache.length : Int) ≤ maxCached then s
  else evictLoop maxCached
    (sortByLastUsed ((s.cache.map Prod.snd).filter (fun i => !i.isDownloading))) s

/-- The `destPath` of `downloadImageFromGCS` (part_004 line 568). -/
def destPath (cacheDir name : String) : String := cacheDir ++ "/" ++ name

/-- The tail of one `downloadWorker` iteration for `name` (part_004 lines
524-554) combined with `downloadImageFromGCS` (556-603). On success the
download has stored the complete entry and created the backing file, the
worker clears `IsDownloading` and evicts; on failure the partial file was
already removed and the worker deletes the cache entry entirely (lines
543-548) so the slot can be retried. -/
def processDownload (cacheDir : String) (maxCached : Int) (name : String)
    (result : Except String (Nat × Int × String)) (s : MgrState) : MgrState :=
  match result with
  | Except.ok (now, size, checksum) =>
    evictOldImages maxCached
      { s with
        cache := KV.insert name
          { name := name, path := destPath cacheDir name, lastUsed := now,
            size := size, checksum := checksum, isDownloading := false } s.cache,
        disk := destPath cacheDir name :: s.disk }
  | Except.error _ =>
    match KV.find name s.cache with
    | none => s
    | some _ => { s with cache := KV.erase name s.cache }

/-- `downloadWorker` receiving the next queued name from the channel and
processing it with the given download result. -/
def workerStep (cacheDir : String) (maxCached : Int)
    (result : Except String (Nat × Int × String)) (s : MgrState) : MgrState :=
  match s.downloadQueue with
  | [] => s
  | name :: rest =>
    processDownload cacheDir maxCached name result { s with downloadQueue := rest }

/-- C5: a failed download never poisons the cache. Requesting an uncached
image stores a downloading placeholder; when the worker's fetch fails, the
placeholder (and its queue ticket) is removed entirely, so a subsequent
request for the name finds no stale entry and starts a fresh fetch — a new
placeholder plus a new queue entry — rather than observing the old error. -/
theorem c5_failed_download_clears_cache_slot (cacheDir : String) (maxCached : Int)
    (name e : String) (s : MgrState)
    (hmiss : KV.find name s.cache = none) (hq : s.downloadQueue = []) :
    KV.find name (workerStep cacheDir maxCached (Except.error e)
      (RequestImageDownload name s)).cache = none ∧
    (workerStep cacheDir maxCached (Except.error e)
      (RequestImageDownload name s)).downloadQueue = [] ∧
    (RequestImageDownload name (workerStep cacheDir maxCached (Except.error e)
      (RequestImageDownload name s))).downloadQueue = [name] ∧
    KV.find name (RequestImageDownload name (workerStep cacheDir maxCached (Except.error e)
      (RequestImageDownload name s))).cache = some (placeholder name) := by
  have hreq : RequestImageDownload name s =
      { s with cache := KV.insert name (placeholder name) s.cache,
               downloadQueue := s.downloadQueue ++ [name] } := by
    unfold RequestImageDownload
    rw [hmiss]
  have hfindPh : KV.find name (KV.insert name (placeholder name) s.cache) =
      some (placeholder name) := KV.find_insert_self name (placeholder name) s.cache
  have hworker : workerStep cacheDir maxCached (Except.error e)
      (RequestImageDownload name s) =
      { s with cache := KV.erase name (KV.insert name (placeholder name) s.cache),
               downloadQueue := [] } := by
    rw [hreq]
    unfold workerStep
    rw [hq]
    simp only [List.nil_append]
    unfold processDownload
    rw [hfindPh]
  have hclear : KV.find name (KV.erase name (KV.insert name (placeholder name) s.cache)) =
      none := KV.find_erase_self name (KV.insert name (placeholder name) s.cache)
  refine ⟨by rw [hworker]; exact hclear, by rw [hworker], ?_, ?_⟩
  · rw [hworker]
    unfold RequestImageDownload
    simp only [hclear]
    rfl
  · rw [hworker]
    unfold RequestImageDownload
    simp only [hclear]
    exact KV.find_insert_self name (placeholder name) _

/-- Witness for C5 at a concrete empty manager state. -/
theorem c5_failed_download_clears_cache_slot_witness :
    KV.find "img" (workerStep "/imagecache" 5 (Except.error "timeout")
      (RequestImageDownload "img" { cache := [], downloadQueue := [], disk := [] })).cache =
        none ∧
    (workerStep "/imagecache" 5 (Except.error "timeout")
      (RequestImageDownload "img"
        { cache := [], downloadQueue := [], disk := [] })).downloadQueue = [] ∧
    (RequestImageDownload "img" (workerStep "/imagecache" 5 (Except.error "timeout")
      (RequestImageDownload "img"
        { cache := [], downloadQueue := [], disk := [] }))).downloadQueue = ["img"] ∧
    KV.find "img" (RequestImageDownload "img"
      (workerStep "/imagecache" 5 (Except.error "timeout")
        (RequestImageDownload "img"
          { cache := [], downloadQueue := [], disk := [] }))).cache =
      some (placeholder "img") :=
  c5_failed_download_clears_cache_slot "/imagecache" 5 "img" "timeout"
    { cache := [], downloadQueue := [], disk := [] } rfl rfl

/-- C7 counterexample: a cache entry that is a downloading placeholder is
reported by `GetCachedImagePath` as a hit (`found = true`, with the
placeholder's empty path), not as a miss, even though `IsImageDownloading` is
true for it. -/
theorem c7_downloading_entry_reported_as_hit :
    (GetCachedImagePath "A" 7
      { cache := [("A", placeholder "A")], downloadQueue := ["A"], disk := [] }).1 =
      ("", true) ∧
    IsImageDownloading "A"
      { cache := [("A", placeholder "A")], downloadQueue := ["A"], disk := [] } = true := by
  exact ⟨rfl, rfl⟩

/-- C7 (amended): `GetCachedImagePath` reports a hit exactly when an entry
exists — downloading or not — and on a hit returns the stored path (empty for
a placeholder) and refreshes `lastUsed`; callers must consult
`IsImageDownloading` separately to join an in-flight download. -/
theorem c7_get_hit_iff_entry_exists (name : String) (now : Nat) (s : MgrState) :
    ((GetCachedImagePath name now s).1.2 = true ↔ (KV.find name s.cache).isSome = true) ∧
    (∀ info : ImageInfo, KV.find name s.cache = some info →
      (GetCachedImagePath name now s).1.1 = info.path ∧
      KV.find name ((GetCachedImagePath name now s).2).cache =
        some { info with lastUsed := now }) := by
  cases h : KV.find name s.cache with
  | none =>
    refine ⟨by simp [GetCachedImagePath, h], ?_⟩
    intro info hinfo
    exact absurd hinfo (by simp)
  | some info0 =>
    refine ⟨by simp [GetCachedImagePath, h], ?_⟩
    intro info hinfo
    have heq : info0 = info := Option.some.inj hinfo
    subst heq
    unfold GetCachedImagePath
    rw [h]
    exact ⟨rfl, KV.find_insert_self name _ _⟩

/-- Witness for C7 (amended) on a one-entry cache. -/
theorem c7_get_hit_iff_entry_exists_witness :
    (GetCachedImagePath "A" 7
      { cache := [("A", { name := "A", path := "/imagecache/A", lastUsed := 1, size := 4,
                          checksum := "c", isDownloading := false })],
        downloadQueue := [], disk := ["/imagecache/A"] }).1.1 = "/imagecache/A" ∧
    KV.find "A" ((GetCachedImagePath "A" 7
      { cache := [("A", { name := "A", path := "/imagecache/A", lastUsed := 1, size := 4,
                          checksum := "c", isDownloading := false })],
        downloadQueue := [], disk := ["/imagecache/A"] }).2).cache =
      some { name := "A", path := "/imagecache/A", lastUsed := 7, size := 4,
             checksum := "c", isDownloading := false } :=
  (c7_get_hit_iff_entry_exists "A" 7
    { cache := [("A", { name := "A", path := "/imagecache/A", lastUsed := 1, size := 4,
                        checksum := "c", isDownloading := false })],
      downloadQueue := [], disk := ["/imagecache/A"] }).2
    { name := "A", path := "/imagecache/A", lastUsed := 1, size := 4,
      checksum := "c", isDownloading := false } rfl

end ImageMgr

namespace Handler

/-- The stages of the `handleProvisionVM` pipeline (main.go 363-481) that run
after validation and machine-identifier generation. -/
inductive Stage where
  | mkdirStage
  | diskCopy
  | auxCopy
  | marshalConfig
  | writeConfig
  | startVM
deriving Repr, DecidableEq

/-- Injected success/failure of each external pipeline operation. -/
structure StageOutcomes where
  mkdirOk : Bool
  diskCopyOk : Bool
  auxCopyOk : Bool
  marshalOk : Bool
  writeConfigOk : Bool
  startOk : Bool
deriving Repr, DecidableEq

/-- The outcome flag belonging to a stage. -/
def stageOutcome (oc : StageOutcomes) : Stage → Bool
  | Stage.mkdirStage => oc.mkdirOk
  | Stage.diskCopy => oc.diskCopyOk
  | Stage.auxCopy => oc.auxCopyOk
  | Stage.marshalConfig => oc.marshalOk
  | Stage.writeConfig => oc.writeConfigOk
  | Stage.startVM => oc.startOk

/-- HTTP responses of `handleProvisionVM`: 429, 400 (bad payload), 400
(missing fields), 500 (machine id), 500 (stage, message naming it), 202. -/
inductive ProvResponse where
  | capacityExceeded
  | badPayload
  | validationError
  | machineIdError
  | stageFailed (st : Stage)
  | accepted
deriving Repr, DecidableEq

/-- Observable side effects of one `handleProvisionVM` call after it returns:
whether a machine identifier was generated, whether the VM's root directory
still exists, and whether a VM process was started and is still running. -/
structure Effects where
  machineIdGenerated : Bool
  dirExists : Bool
  processStarted : Bool
deriving Repr, DecidableEq

def noEffects : Effects :=
  { machineIdGenerated := false, dirExists := false, processStarted := false }

/-- The two validated fields of `ProvisionVMRequest` (main.go 88-94). -/
structure ProvisionRequest where
  vmId : String
  imageName : String
deriving Repr, DecidableEq

/-- `handleProvisionVM` (main.go 363-481). In source order: the capacity check
against `getActiveVMs`, body decoding (`none` = malformed), validation of
`vmId`/`imageName`, `generateMachineIdentifier`, then the pipeline; every
stage failure after `MkdirAll` runs `os.RemoveAll` on the VM root before
returning, and a `startVMInBackground` error means no process was started. -/
def handleProvisionVM (activeCount : Nat) (body : Option ProvisionRequest)
    (midOk : Bool) (oc : StageOutcomes) : ProvResponse × Effects :=
  if Admission.MaxActiveVMs ≤ activeCount then (ProvResponse.capacityExceeded, noEffects)
  else
    match body with
    | none => (ProvResponse.badPayload, noEffects)
    | some req =>
      if req.vmId = "" ∨ req.imageName = "" then (ProvResponse.validationError, noEffects)
      else if !midOk then (ProvResponse.machineIdError, noEffects)
      else if !oc.mkdirOk then
        (ProvResponse.stageFailed Stage.mkdirStage,
         { machineIdGenerated := true, dirExists := false, processStarted := false })
      else if !oc.diskCopyOk then
        (ProvResponse.stageFailed Stage.diskCopy,
         { machineIdGenerated := true, dirExists := false, processStarted := false })
      else if !oc.auxCopyOk then
        (ProvResponse.stageFailed Stage.auxCopy,
         { machineIdGenerated := true, dirExists := false, processStarted := false })
      else if !oc.marshalOk then
        (ProvResponse.stageFailed Stage.marshalConfig,
         { machineIdGenerated := true, dirExists := false, processStarted := false })
      else if !oc.writeConfigOk then
        (ProvResponse.stageFailed Stage.writeConfig,
         { machineIdGenerated := true, dirExists := false, processStarted := false })
      else if !oc.startOk then
        (ProvResponse.stageFailed Stage.startVM,
         { machineIdGenerated := true, dirExists := false, processStarted := false })
      else (ProvResponse.accepted,
            { machineIdGenerated := true, dirExists := true, processStarted := true })

/-- The stages of `Manager.ProvisionVM` (internal/vm/manager.go 54-183). -/
inductive MgrStage where
  | imageDownload
  | mkdirStage
  | startVM
  | readScript
  | parseScript
  | execScript
deriving Repr, DecidableEq

/-- Injected outcomes for `Manager.ProvisionVM`'s external operations. -/
structure MgrOutcomes where
  downloadOk : Bool
  mkdirOk : Bool
  startOk : Bool
  readScriptOk : Bool
  parseOk : Bool
  execOk : Bool
deriving Repr, DecidableEq

/-- Residual state of one `Manager.ProvisionVM` call. -/
structure MgrEffects where
  dirExists : Bool
deriving Repr, DecidableEq

/-- `Manager.ProvisionVM` (internal/vm/manager.go 54-183): image acquisition,
`os.MkdirAll(vmDir)` (line 100), `tart run` (118-125), reading and parsing the
runner script (137-159), and the SSH script execution (164-169). Every failure
returns the wrapped error directly — the function contains no `RemoveAll` or
other compensation, so the VM directory persists once created. -/
def managerProvisionVM (cached : Bool) (oc : MgrOutcomes) :
    Except MgrStage Unit × MgrEffects :=
  if !cached && !oc.downloadOk then (Except.error MgrStage.imageDownload, { dirExists := false })
  else if !oc.mkdirOk then (Except.error MgrStage.mkdirStage, { dirExists := false })
  else if !oc.startOk then (Except.error MgrStage.startVM, { dirExists := true })
  else if !oc.readScriptOk then (Except.error MgrStage.readScript, { dirExists := true })
  else if !oc.parseOk then (Except.error MgrStage.parseScript, { dirExists := true })
  else if !oc.execOk then (Except.error MgrStage.execScript, { dirExists := true })
  else (Except.ok (), { dirExists := true })

/-- C3 (amended): in the main.go handler pipeline, every stage failure leaves
no VM directory behind (which also frees the directory-count admission slot),
leaves no running process, and the returned error names a stage that did
fail. -/
theorem c3_handler_rollback_on_stage_failure (activeCount : Nat)
    (body : Option ProvisionRequest) (midOk : Bool) (oc : StageOutcomes)
    (st : Stage) (eff : Effects)
    (h : handleProvisionVM activeCount body midOk oc = (ProvResponse.stageFailed st, eff)) :
    eff.dirExists = false ∧ eff.processStarted = false ∧ stageOutcome oc st = false := by
  unfold handleProvisionVM at h
  split at h
  · simp at h
  · split at h
    · simp at h
    · split at h
      · simp at h
      · split at h
        · simp at h
        · split at h
          · obtain ⟨h1, h2⟩ := Prod.mk.injEq .. ▸ h
            obtain rfl : st = Stage.mkdirStage := (ProvResponse.stageFailed.injEq .. ▸ h1).symm
            refine ⟨by rw [← h2], by rw [← h2], ?_⟩
            simp only [stageOutcome]
            simp_all
          · split at h
            · obtain ⟨h1, h2⟩ := Prod.mk.injEq .. ▸ h
              obtain rfl : st = Stage.diskCopy := (ProvResponse.stageFailed.injEq .. ▸ h1).symm
              refine ⟨by rw [← h2], by rw [← h2], ?_⟩
              simp only [stageOutcome]
              simp_all
            · split at h
              · obtain ⟨h1, h2⟩ := Prod.mk.injEq .. ▸ h
                obtain rfl : st = Stage.auxCopy := (ProvResponse.stageFailed.injEq .. ▸ h1).symm
                refine ⟨by rw [← h2], by rw [← h2], ?_⟩
                simp only [stageOutcome]
                simp_all
              · split at h
                · obtain ⟨h1, h2⟩ := Prod.mk.injEq .. ▸ h
                  obtain rfl : st = Stage.marshalConfig :=
                    (ProvResponse.stageFailed.injEq .. ▸ h1).symm
                  refine ⟨by rw [← h2], by rw [← h2], ?_⟩
                  simp only [stageOutcome]
                  simp_all
                · split at h
                  · obtain ⟨h1, h2⟩ := Prod.mk.injEq .. ▸ h
                    obtain rfl : st = Stage.writeConfig :=
                      (ProvResponse.stageFailed.injEq .. ▸ h1).symm
                    refine ⟨by rw [← h2], by rw [← h2], ?_⟩
                    simp only [stageOutcome]
                    simp_all
                  · split at h
                    · obtain ⟨h1, h2⟩ := Prod.mk.injEq .. ▸ h
                      obtain rfl : st = Stage.startVM :=
                        (ProvResponse.stageFailed.injEq .. ▸ h1).symm
                      refine ⟨by rw [← h2], by rw [← h2], ?_⟩
                      simp only [stageOutcome]
                      simp_all
                    · simp at h

/-- Witness for C3 (amended): a disk-copy failure on an idle node. -/
theorem c3_handler_rollback_on_stage_failure_witness :
    ({ machineIdGenerated := true, dirExists := false, processStarted := false } :
        Effects).dirExists = false ∧
    ({ machineIdGenerated := true, dirExists := false, processStarted := false } :
        Effects).processStarted = false ∧
    stageOutcome
      { mkdirOk := true, diskCopyOk := false, auxCopyOk := true, marshalOk := true,
        writeConfigOk := true, startOk := true } Stage.diskCopy = false :=
  c3_handler_rollback_on_stage_failure 0 (some { vmId := "vm1", imageName := "img" }) true
    { mkdirOk := true, diskCopyOk := false, auxCopyOk := true, marshalOk := true,
      writeConfigOk := true, startOk := true }
    Stage.diskCopy
    { machineIdGenerated := true, dirExists := false, processStarted := false } rfl

/-- C3 counterexample: in `Manager.ProvisionVM`, a failure at the VM-start
stage (after the VM directory was created) returns the error without removing
the directory — a residual VM directory remains, refuting rollback
completeness for that pipeline. -/
theorem c3_manager_pipeline_leaves_directory_on_start_failure :
    (managerProvisionVM true
      { downloadOk := true, mkdirOk := true, startOk := false, readScriptOk := true,
        parseOk := true, execOk := true }).1 = Except.error MgrStage.startVM ∧
    (managerProvisionVM true
      { downloadOk := true, mkdirOk := true, startOk := false, readScriptOk := true,
        parseOk := true, execOk := true }).2.dirExists = true := by
  exact ⟨rfl, rfl⟩

/-- On-disk state of one VM as seen by `handleDeleteVM`. -/
structure VMDirState where
  dirExists : Bool
  pidFile : Option String
deriving Repr, DecidableEq

/-- Responses of `handleDeleteVM` (main.go 484-541). -/
inductive DeleteResponse where
  | badPayload
  | badRequest
  | ok
deriving Repr, DecidableEq

/-- `handleDeleteVM` (main.go 484-541) with its background goroutine run to
completion: decode (`none` = malformed body), validate `vmId` non-empty, then
reply 200 while the goroutine kills any recorded pid (failures only logged)
and `os.RemoveAll`s the VM directory — removing a missing directory succeeds
in Go, and the pid file lives inside the directory. -/
def handleDeleteVM (body : Option String) (st : VMDirState) :
    DeleteResponse × VMDirState :=
  match body with
  | none => (DeleteResponse.badPayload, st)
  | some vmId =>
    if vmId = "" then (DeleteResponse.badRequest, st)
    else (DeleteResponse.ok, { dirExists := false, pidFile := none })

/-- `Manager.DeleteVM` (internal/vm/manager.go 186-215): the `tart stop`
failure is only logged, but a `tart delete` failure is returned as a hard
error. `tart delete` succeeds exactly when the VM exists, removing it. -/
def managerDeleteVM (vms : List String) (vmId : String) : Except String (List String) :=
  if vms.contains vmId then Except.ok (vms.erase vmId)
  else Except.error ("failed to delete VM " ++ vmId)

/-- C4 (amended): the main.go delete handler is idempotent — for every
non-empty vmId and every starting state, the first and the second call both
reply 200 with no error, and the VM directory is gone afterwards. -/
theorem c4_handler_delete_idempotent (vmId : String) (st : VMDirState)
    (h : vmId ≠ "") :
    (handleDeleteVM (some vmId) st).1 = DeleteResponse.ok ∧
    (handleDeleteVM (some vmId) (handleDeleteVM (some vmId) st).2).1 = DeleteResponse.ok ∧
    (handleDeleteVM (some vmId) (handleDeleteVM (some vmId) st).2).2.dirExists = false := by
  simp [handleDeleteVM, h]

/-- Witness for C4 (amended) on a provisioned VM. -/
theorem c4_handler_delete_idempotent_witness :
    (handleDeleteVM (some "vm1") { dirExists := true, pidFile := some "4242" }).1 =
      DeleteResponse.ok ∧
    (handleDeleteVM (some "vm1")
      (handleDeleteVM (some "vm1") { dirExists := true, pidFile := some "4242" }).2).1 =
      DeleteResponse.ok ∧
    (handleDeleteVM (some "vm1")
      (handleDeleteVM (some "vm1")
        { dirExists := true, pidFile := some "4242" }).2).2.dirExists = false :=
  c4_handler_delete_idempotent "vm1" { dirExists := true, pidFile := some "4242" }
    (by simp)

/-- C4 counterexample: `Manager.DeleteVM` is not idempotent — deleting "X"
succeeds once, but the second call in succession finds the VM gone, `tart
delete` fails, and the error is returned as a hard failure. -/
theorem c4_manager_second_delete_returns_error :
    managerDeleteVM ["X"] "X" = Except.ok [] ∧
    managerDeleteVM [] "X" = Except.error "failed to delete VM X" := by
  exact ⟨rfl, rfl⟩

/-- C8 (amended): a provision request with empty `vmId` or `imageName` on a
node below capacity, and any delete request with empty `vmId`, is rejected
with a validation error before any side effect — no machine identifier is
generated, no directory is created, no process is started, and no
deprovisioning step runs. -/
theorem c8_validation_rejection_no_side_effects :
    (∀ (activeCount : Nat) (req : ProvisionRequest) (midOk : Bool) (oc : StageOutcomes),
        activeCount < Admission.MaxActiveVMs →
        req.vmId = "" ∨ req.imageName = "" →
        handleProvisionVM activeCount (some req) midOk oc =
          (ProvResponse.validationError, noEffects)) ∧
    (∀ st : VMDirState,
        handleDeleteVM (some "") st = (DeleteResponse.badRequest, st)) := by
  constructor
  · intro activeCount req midOk oc hcap hval
    unfold handleProvisionVM
    rw [if_neg (by omega)]
    rcases hval with h | h <;> simp [h]
  · intro st
    simp [handleDeleteVM]

/-- Witness for C8 (amended) at concrete invalid requests. -/
theorem c8_validation_rejection_no_side_effects_witness :
    handleProvisionVM 0 (some { vmId := "", imageName := "img" }) true
      { mkdirOk := true, diskCopyOk := true, auxCopyOk := true, marshalOk := true,
        writeConfigOk := true, startOk := true } =
      (ProvResponse.validationError, noEffects) ∧
    handleDeleteVM (some "") { dirExists := true, pidFile := some "4242" } =
      (DeleteResponse.badRequest, { dirExists := true, pidFile := some "4242" }) :=
  ⟨c8_validation_rejection_no_side_effects.1 0 { vmId := "", imageName := "img" } true
      { mkdirOk := true, diskCopyOk := true, auxCopyOk := true, marshalOk := true,
        writeConfigOk := true, startOk := true }
      (by norm_num [Admission.MaxActiveVMs]) (Or.inl rfl),
   c8_validation_rejection_no_side_effects.2 { dirExists := true, pidFile := some "4242" }⟩

/-- C8 counterexample: a provision request with an empty vmId arriving on a
node at capacity is rejected with capacity-exceeded, not with a validation
error — the capacity check precedes validation (still with no side
effects). -/
theorem c8_empty_vmid_at_capacity_gets_capacity_error :
    handleProvisionVM 2 (some { vmId := "", imageName := "img" }) true
      { mkdirOk := true, diskCopyOk := true, auxCopyOk := true, marshalOk := true,
        writeConfigOk := true, startOk := true } =
      (ProvResponse.capacityExceeded, noEffects) ∧
    ProvResponse.capacityExceeded ≠ ProvResponse.validationError := by
  exact ⟨rfl, by simp⟩

end Handler
